import Mathlib

/-!
Shallow embedding of the computercraft repository (Rust) for verification:

* the gateway hub / rednet-RPC broker (`src/k8s/crates/gateway/src/main.rs`);
* the cluster reconciler's diff pass and requeue cadence
  (`src/k8s/crates/controller/src/reconcilers/cluster.rs` and the identical
  legacy copy `src/controller/src/reconciler.rs`);
* the gateway reconciler's hub objects (`src/k8s/crates/controller/src/reconcilers/gateway.rs`);
* the owner-reference helper (`src/k8s/crates/controller/src/reconcilers.rs`);
* the serde wire format of RPC envelopes and of `ComputerStatus`
  (`src/k8s/crates/controller/src/api.rs`).

Machine integers from the source (`u32`, `i64`) are modelled as `Nat`/`Int`;
none of the embedded code paths can overflow them, since the only arithmetic
is `now - 300` on a Unix timestamp. UUIDs are carried opaquely as strings.
-/

namespace Computercraft

/-! ## A minimal JSON value model

Used to state serde (de)serialization facts.  Mirrors `serde_json::Value`
restricted to the shapes the embedded code produces. -/

/-- A JSON value. -/
inductive Json where
  | null : Json
  | bool (b : Bool) : Json
  | num (n : Int) : Json
  | str (s : String) : Json
  | arr (items : List Json) : Json
  | obj (fields : List (String × Json)) : Json

/-- Look up a key in a JSON object (first occurrence); `none` for non-objects. -/
def Json.lookup : Json → String → Option Json
  | .obj fields, key => List.lookup key fields
  | _, _ => none

/-! ## Gateway hub data model (`src/k8s/crates/gateway/src/main.rs`) -/

/-- `type ComputerId = String;` -/
abbrev ComputerId := String

/-- A `uuid::Uuid` carried opaquely as its string form (its only uses in the
embedded code are as a map key and as a serialized string). -/
abbrev Uuid := String

/-- `enum RednetRpcDestination` (gateway hub).  Variants `Anycast`, `Computer`,
`Host`, with `#[serde(rename_all = "camelCase")]` and no `tag` attribute. -/
inductive RednetRpcDestination where
  | anycast (protocol : String)
  | computer (id : ComputerId) (protocol : Option String)
  | host (protocol : String) (host : String)
deriving DecidableEq

/-- serde serialization of an `Option<String>` field without skip attributes:
`None` becomes JSON `null`. -/
def serializeOptString : Option String → Json
  | none => Json.null
  | some s => Json.str s

/-- serde serialization of `RednetRpcDestination`: the enum carries no
`#[serde(tag = ...)]` attribute, so serde uses the externally tagged
representation — a one-key object whose key is the camelCase variant name. -/
def RednetRpcDestination.serialize : RednetRpcDestination → Json
  | .anycast protocol => .obj [("anycast", .obj [("protocol", .str protocol)])]
  | .computer id protocol =>
      .obj [("computer", .obj [("id", .str id), ("protocol", serializeOptString protocol)])]
  | .host protocol h =>
      .obj [("host", .obj [("protocol", .str protocol), ("host", .str h)])]

/-- The discriminant of an externally tagged serde enum value: the key of the
one-key JSON object. -/
def destTag : Json → Option String
  | .obj [(key, _)] => some key
  | _ => none

/-- `struct RednetRpcMessage<T>` with fields `dest`, `request_id`
(`#[serde(rename = "requestID")]`) and `payload`. -/
structure RednetRpcMessage (T : Type) where
  dest : RednetRpcDestination
  request_id : Uuid
  payload : T
deriving DecidableEq

/-- serde serialization of `RednetRpcMessage<T>`, given a serializer for the
payload type; the `request_id` field serializes under the renamed key
`"requestID"`, and a `Uuid` serializes as its string form. -/
def RednetRpcMessage.serialize (serializePayload : T → Json)
    (m : RednetRpcMessage T) : Json :=
  .obj [("dest", m.dest.serialize),
        ("requestID", .str m.request_id),
        ("payload", serializePayload m.payload)]

/-- `struct HttpRequest`: method, URI (split here into path and query),
headers multi-map, body.  The header map is modelled as an association list. -/
structure HttpRequest where
  method : String
  path : String
  query : Option String
  headers : List (String × List String)
  body : String
deriving DecidableEq

/-- `struct HttpResponse`: status, headers multi-map, body. -/
structure HttpResponse where
  status : Nat
  headers : List (String × List String)
  body : String
deriving DecidableEq

/-- A built rocket `Response`, as produced by `HttpResponse::respond_to`:
status, flattened raw headers in insertion order, and the body bytes. -/
structure BuiltResponse where
  status : Nat
  raw_headers : List (String × String)
  body : String
deriving DecidableEq

/-- `impl Responder for HttpResponse`: the handler replies with the reply's
status, every (name, value) header pair, and the body. -/
def HttpResponse.respond_to (r : HttpResponse) : BuiltResponse :=
  { status := r.status
    raw_headers := r.headers.flatMap (fun hv => hv.2.map (fun v => (hv.1, v)))
    body := r.body }

/-- `struct HttpOverRednetRoute { prefix: PathBuf, backend: RednetRpcDestination }`.
The route list is parsed from UTF-8 YAML, so `prefix.to_str()` always succeeds;
the `PathBuf` is therefore modelled as a `String` (field renamed to
`prefixStr`, as `prefix` is a Lean keyword). -/
structure HttpOverRednetRoute where
  prefixStr : String
  backend : RednetRpcDestination
deriving DecidableEq

/-- `str::starts_with` on strings, computed character-wise on the underlying
data (equivalent to byte-wise comparison on UTF-8 strings). -/
def strStartsWith (s p : String) : Bool :=
  p.data.isPrefixOf s.data

/-- Drop the first `n` characters of a string (for stripping the ASCII
`/gateway` prefix this agrees with `str::strip_prefix`). -/
def strDropChars (s : String) (n : Nat) : String :=
  ⟨s.data.drop n⟩

/-- `HttpOverRednetRoute::check`: `req.uri.path().starts_with(prefix_str)`. -/
def HttpOverRednetRoute.check (route : HttpOverRednetRoute) (req : HttpRequest) : Bool :=
  strStartsWith req.path route.prefixStr

/-- `struct RednetConfig { routes: Vec<HttpOverRednetRoute> }`. -/
structure RednetConfig where
  routes : List HttpOverRednetRoute
deriving DecidableEq

/-- `fn default_gateway_timeout() -> u32 { 5 }` — the serde default for
`GatewayConfig::gateway_timeout`. -/
def default_gateway_timeout : Nat := 5

/-! ## Gateway hub runtime state and request handler -/

/-- `struct Server`.  `listeners` is a `DashMap<ComputerId, mpsc::Sender<...>>`;
the sender is modelled by whether its channel is still open (a send on it
succeeds).  `in_flight_requests` is a `DashMap<Uuid, oneshot::Sender<HttpResponse>>`;
the oneshot sender is opaque to the embedded code, so the table is modelled by
its key set (keys are unique in a `DashMap`). -/
structure ServerState where
  listeners : List (ComputerId × Bool)
  in_flight_requests : List Uuid
deriving DecidableEq

/-- `Server::cancel_request`: `self.in_flight_requests.remove(request_id)`. -/
def cancelRequest (table : List Uuid) (request_id : Uuid) : List Uuid :=
  table.filter (fun rid => rid != request_id)

/-- The resolution of the handler's suspended wait
(`timeout(gateway_timeout, rx).await`), plus the possibility that the waiting
HTTP request itself is dropped before resolving. -/
inductive WaitOutcome where
  | reply (resp : HttpResponse)
  | timedOut
  | canceled
  | aborted
deriving DecidableEq

/-- What the handler produces: a successful passthrough response, an HTTP
error status, or nothing at all because the request future was dropped. -/
inductive HandlerOutcome where
  | success (resp : HttpResponse)
  | failure (status : Nat)
  | aborted
deriving DecidableEq

/-- The environment a single `GatewayHandler::handle` call observes:
the result of reading and parsing the rednet config file (`none` = unreadable
or unparseable), the result of reading the request body up to 1 MiB (`none` =
read failure or truncation), the index `rand::rng().random_range(0..n)`
produced for the listener snapshot, and how the suspended wait resolves. -/
structure HandlerEnv where
  configResult : Option RednetConfig
  bodyResult : Option String
  randIndex : Nat
  waitOutcome : WaitOutcome
deriving DecidableEq

/-- The observable effect of one `GatewayHandler::handle` call: its outcome,
the server state at return, and the envelopes successfully enqueued on a
listener's outbound queue. -/
structure HandleResult where
  outcome : HandlerOutcome
  server : ServerState
  sent : List (RednetRpcMessage HttpRequest)
deriving DecidableEq

/-- The closure passed to `map_path`: `p.strip_prefix("/gateway").unwrap_or(p)`
— remove a leading `/gateway` if present, keep the path unchanged otherwise. -/
def stripGatewayPath (p : String) : String :=
  if strStartsWith p "/gateway" then strDropChars p "/gateway".length else p

/-- `uri.map_path(|p| p.strip_prefix("/gateway").unwrap_or(p))`: `map_path`
yields `Some` only when the mapped path is still a valid origin path, which —
stripping never introduces invalid characters — means it still begins with
`/`.  In particular a request for exactly `/gateway` strips to `""` and fails
here. -/
def mapPathStripGateway (p : String) : Option String :=
  if strStartsWith (stripGatewayPath p) "/" then some (stripGatewayPath p) else none

/-- The route selection in `GatewayHandler::handle`:
`rednet.routes.iter().find_map(|route| route.check(&req).then_some(route.backend.clone()))`. -/
def selectBackend (routes : List HttpOverRednetRoute) (req : HttpRequest) :
    Option RednetRpcDestination :=
  routes.findSome? (fun route => if route.check req then some route.backend else none)

/-- `Server::new_request`: snapshot the listener table; empty snapshot fails
with 502 (`BadGateway`); an out-of-range pick fails with 500
(`InternalServerError`, the "listener membership changed" branch); a send on a
closed channel fails with 500; otherwise the envelope is enqueued and then the
reply slot is installed under `message.request_id`.  Returns the updated state
and the enqueued envelopes. -/
def newRequest (s : ServerState) (randIndex : Nat)
    (message : RednetRpcMessage HttpRequest) :
    Except Nat (ServerState × List (RednetRpcMessage HttpRequest)) :=
  if s.listeners.isEmpty then .error 502
  else
    match s.listeners[randIndex]? with
    | none => .error 500
    | some listener =>
        if listener.2 then
          .ok ({ s with in_flight_requests := message.request_id :: s.in_flight_requests },
               [message])
        else .error 500

/-- `GatewayHandler::handle`, parameterized over the environment.  Stages in
source order: load config (502 on failure); strip `/gateway` from the path via
`map_path` (500 when the mapped path is invalid); route match (404 when none);
read the body (500 on failure); `new_request`; suspend on the reply slot with
a timeout.  On every exit from the wait the `RednetRpcReceiver` is dropped,
and `PinnedDrop::drop` runs `cancel_request(request_id)`. -/
def gatewayHandle (env : HandlerEnv) (req0 : HttpRequest) (request_id : Uuid)
    (s : ServerState) : HandleResult :=
  match env.configResult with
  | none => ⟨.failure 502, s, []⟩
  | some rednet =>
    -- `http_request.uri` rebound with the `/gateway` prefix stripped
    match mapPathStripGateway req0.path with
    | none => ⟨.failure 500, s, []⟩
    | some stripped =>
      match selectBackend rednet.routes { req0 with path := stripped } with
      | none => ⟨.failure 404, s, []⟩
      | some dest =>
        match env.bodyResult with
        | none => ⟨.failure 500, s, []⟩
        | some body =>
          -- `http_request.body` filled in, then the envelope handed to `new_request`
          match newRequest s env.randIndex
              ⟨dest, request_id, { req0 with path := stripped, body := body }⟩ with
          | .error status => ⟨.failure status, s, []⟩
          | .ok (s1, sent) =>
            ⟨(match env.waitOutcome with
               | .reply resp => .success resp
               | .timedOut => .failure 504
               | .canceled => .failure 502
               | .aborted => .aborted),
             { s1 with in_flight_requests := cancelRequest s1.in_flight_requests request_id },
             sent⟩

/-- The spec-side route selection, stated the way the spec words it: the first
route in declared order whose prefix is a string prefix of the request path. -/
def firstMatchingBackend : List HttpOverRednetRoute → String → Option RednetRpcDestination
  | [], _ => none
  | route :: rest, p =>
      if strStartsWith p route.prefixStr then some route.backend
      else firstMatchingBackend rest p

/-! ## Controller resource model (`src/k8s/crates/controller/src/api.rs`) -/

/-- `struct ComputerInternalState { label: Option<String>, script: Option<String> }`,
`#[derive(..., PartialEq, Eq, Default)]`. -/
structure ComputerInternalState where
  label : Option String
  script : Option String
deriving DecidableEq

/-- `Default::default()` for `ComputerInternalState`: both fields `None`. -/
def ComputerInternalState.default : ComputerInternalState :=
  { label := none, script := none }

/-- `struct ComputerSpec { id: String, #[serde(flatten)] state: ComputerInternalState }`. -/
structure ComputerSpec where
  id : String
  state : ComputerInternalState
deriving DecidableEq

/-- `struct ComputerStatus { #[serde(skip)] state, online: bool,
last_heartbeat_unix_sec: Option<i64> }`. -/
structure ComputerStatus where
  state : ComputerInternalState
  online : Bool
  last_heartbeat_unix_sec : Option Int
deriving DecidableEq

/-- `k8s_openapi` `OwnerReference`; the two optional fields are left `None`
by `..Default::default()` in `owner_ref_from_object_ref`. -/
structure OwnerReference where
  api_version : String
  kind : String
  name : String
  uid : String
  controller : Option Bool
  block_owner_deletion : Option Bool
deriving DecidableEq

/-- The orchestrator `ObjectMeta` fields the embedded code reads.  (`namespace`
is not consulted by the diff pass and is omitted.) -/
structure ObjectMeta where
  name : Option String
  uid : Option String
  owner_references : Option (List OwnerReference)
deriving DecidableEq

/-- A `Computer` custom resource: metadata, spec, optional status. -/
structure Computer where
  metadata : ObjectMeta
  spec : ComputerSpec
  status : Option ComputerStatus
deriving DecidableEq

/-- `enum GatewayCommand { Wake { computer_id: String } }` (k8s crate); the
legacy crate's `c2::Command` has the identical single variant. -/
inductive GatewayCommand where
  | wake (computer_id : String)
deriving DecidableEq

/-- One `patch_status` call made by the diff pass: the target computer's
metadata name and the `online` value in the `json!({"status": {"online": ...}})`
payload. -/
structure StatusPatch where
  name : String
  online : Bool
deriving DecidableEq

/-! ## Cluster diff pass
(`compute_cluster_diff_and_set_statuses`, identical in
`src/k8s/crates/controller/src/reconcilers/cluster.rs` and
`src/controller/src/reconciler.rs`) -/

/-- The owner filter in the diff loop:
`computer.metadata.owner_references.as_ref().is_some_and(|owners|
owners.iter().any(|o| Some(o.uid.as_str()) == cluster.metadata.uid.as_deref()))`. -/
def ownedByCluster (clusterUid : Option String) (c : Computer) : Bool :=
  match c.metadata.owner_references with
  | none => false
  | some owners => owners.any (fun o => some o.uid == clusterUid)

/-- The body of one iteration of the diff loop for computer `c`:
the commands pushed and the status patches issued.  `now` is
`chrono::Utc::now().timestamp()`.  The source unwraps `metadata.name` when
patching; objects listed from the API server always carry a name, modelled
with `getD ""`. -/
def diffStep (clusterUid : Option String) (now : Int) (c : Computer) :
    List GatewayCommand × List StatusPatch :=
  if !ownedByCluster clusterUid c then ([], [])
  else if c.status.map (fun st => st.state) ≠ some c.spec.state then
    ([.wake c.spec.id], [])
  else
    match c.status with
    | none => ([], [])
    | some status =>
        let is_online := status.last_heartbeat_unix_sec.any (fun t => decide (now - 300 ≤ t))
        if status.online != is_online then
          ((if is_online then [] else [.wake c.spec.id]),
           [{ name := c.metadata.name.getD "", online := is_online }])
        else ([], [])

/-- `compute_cluster_diff_and_set_statuses` restricted to its pure content:
the loop over the listed computers, accumulating pushed commands and issued
status patches in iteration order. -/
def computeClusterDiff (clusterUid : Option String) (now : Int) :
    List Computer → List GatewayCommand × List StatusPatch
  | [] => ([], [])
  | c :: rest =>
      let step := diffStep clusterUid now c
      let tail := computeClusterDiff clusterUid now rest
      (step.1 ++ tail.1, step.2 ++ tail.2)

/-- A `kube` requeue action. -/
inductive Action where
  | requeue (seconds : Nat)
deriving DecidableEq

/-- The tail of `reconcile` in the k8s cluster reconciler
(`src/k8s/crates/controller/src/reconcilers/cluster.rs`): empty command list
requeues after 300 s, otherwise requeue after 10 s.  The publish to the
per-cluster channel is commented out in the source
(`// TODO: send commands to new gateway`), so the second component — the
sequences written to the per-cluster channel — is always empty. -/
def reconcileTailK8s (commands : List GatewayCommand) :
    Action × List (List GatewayCommand) :=
  if commands.isEmpty then (.requeue 300, [])
  else (.requeue 10, [])

/-- The tail of `reconcile` in the legacy controller
(`src/controller/src/reconciler.rs`): empty command list requeues after 300 s;
otherwise `c2_server.sender(namespace, name).send(commands)` writes the list
into the per-cluster latest-value (`tokio::sync::watch`) channel and the
reconcile requeues after 10 s. -/
def reconcileTailLegacy (commands : List GatewayCommand) :
    Action × List (List GatewayCommand) :=
  if commands.isEmpty then (.requeue 300, [])
  else (.requeue 10, [commands])

/-! ## Owner-reference helper (`src/k8s/crates/controller/src/reconcilers.rs`,
identical copy in `src/controller/src/reconciler.rs`) -/

/-- The input `ObjectReference` fields the helper reads. -/
structure ObjectReference where
  api_version : Option String
  kind : Option String
  name : Option String
  uid : Option String
deriving DecidableEq

/-- The controller error type; `owner_ref_from_object_ref` can only produce
`MissingField` (the other variants wrap external library errors). -/
inductive CtrlError where
  | missingField
deriving DecidableEq

/-- `owner_ref_from_object_ref`: each of `api_version`, `kind`, `name`, `uid`
is taken with `.clone().ok_or_else(|| Error::MissingField)?`; the remaining
`OwnerReference` fields come from `..Default::default()`. -/
def owner_ref_from_object_ref (r : ObjectReference) : Except CtrlError OwnerReference :=
  match r.api_version with
  | none => .error .missingField
  | some api_version =>
    match r.kind with
    | none => .error .missingField
    | some kind =>
      match r.name with
      | none => .error .missingField
      | some name =>
        match r.uid with
        | none => .error .missingField
        | some uid =>
            .ok { api_version, kind, name, uid
                  controller := none, block_owner_deletion := none }

/-! ## Gateway reconciler hub objects
(`create_gateway_hub`, `src/k8s/crates/controller/src/reconcilers/gateway.rs`) -/

/-- A `HTTPRouteParentRefs` value: parent gateway name, its namespace, and the
listener section name. -/
structure HTTPRouteParentRef where
  name : String
  ns : Option String
  section_name : Option String
deriving DecidableEq

/-- A `HTTPRouteRulesBackendRefs` value: backing service name and port. -/
structure HTTPRouteBackendRef where
  name : String
  port : Option Int
deriving DecidableEq

/-- A `HTTPRouteRulesMatchesPath` value; `type` is left unset by the source
(the Gateway API defaults it to `PathPrefix`). -/
structure HTTPRoutePathMatch where
  value : Option String
deriving DecidableEq

/-- The `RequestRedirect` filter attached to the rule: its
`replace_prefix_match` path rewrite and status code. -/
structure HTTPRouteRedirectFilter where
  replace_prefix_match : Option String
  status_code : Option Int
deriving DecidableEq

/-- A `HTTPRouteRules` value restricted to the fields the source sets. -/
structure HTTPRouteRule where
  rule_matches : List HTTPRoutePathMatch
  filters : List HTTPRouteRedirectFilter
  backend_refs : List HTTPRouteBackendRef
deriving DecidableEq

/-- The `HTTPRoute` object applied by `create_gateway_hub`, restricted to the
fields the source sets. -/
structure HTTPRouteModel where
  name : String
  parent_refs : List HTTPRouteParentRef
  rules : List HTTPRouteRule
deriving DecidableEq

/-- The `Service` object applied by `create_gateway_hub`, restricted to the
fields the source sets. -/
structure ServiceModel where
  name : String
  selector_app : String
  port : Int
  target_port : Int
  service_type : String
deriving DecidableEq

/-- The HTTP route `create_gateway_hub` server-side-applies for a
`ComputerGateway` named `gateway_name`: named after the hub deployment
`rednet-gateway-{gateway_name}`, claiming parent gateway `cc-web-gateway`
(section `cc-web-gateway`) in the controller namespace, matching path
`/{gateway_name}`, with a 302 `RequestRedirect` filter rewriting the matched
prefix to `/`, backed by the hub service on port 8000. -/
def gatewayHubRoute (gateway_name : String) (controller_namespace : String) :
    HTTPRouteModel :=
  let deployment_name := "rednet-gateway-" ++ gateway_name
  { name := deployment_name
    parent_refs := [{ name := "cc-web-gateway"
                      ns := some controller_namespace
                      section_name := some "cc-web-gateway" }]
    rules := [{ rule_matches := [{ value := some ("/" ++ gateway_name) }]
                filters := [{ replace_prefix_match := some "/", status_code := some 302 }]
                backend_refs := [{ name := deployment_name, port := some 8000 }] }] }

/-- The hub `Service` `create_gateway_hub` server-side-applies: a `ClusterIP`
service named `rednet-gateway-{gateway_name}`, selecting `app=hub_name`,
exposing port 8000 with target port 8000. -/
def gatewayHubService (gateway_name : String) : ServiceModel :=
  let deployment_name := "rednet-gateway-" ++ gateway_name
  { name := deployment_name
    selector_app := deployment_name
    port := 8000
    target_port := 8000
    service_type := "ClusterIP" }

/-! ## serde deserialization of `ComputerStatus` -/

/-- The serde-derived `Deserialize` for `ComputerStatus`: the input must be a
JSON object; `state` carries `#[serde(skip)]`, so it is never read from the
input and is filled with `Default::default()`; `online: bool` is required;
`last_heartbeat_unix_sec: Option<i64>` accepts a number, `null`, or absence
(`None`).  Unknown fields — including any `"state"` entry — are ignored, and a
duplicated field reads its first occurrence. -/
def deserializeComputerStatus (j : Json) : Except String ComputerStatus :=
  match j with
  | .obj fields =>
    match Json.lookup (.obj fields) "online" with
    | some (.bool b) =>
      match Json.lookup (.obj fields) "last_heartbeat_unix_sec" with
      | some (.num t) =>
          .ok { state := ComputerInternalState.default, online := b,
                last_heartbeat_unix_sec := some t }
      | some .null =>
          .ok { state := ComputerInternalState.default, online := b,
                last_heartbeat_unix_sec := none }
      | none =>
          .ok { state := ComputerInternalState.default, online := b,
                last_heartbeat_unix_sec := none }
      | some _ => .error "invalid type for field last_heartbeat_unix_sec"
    | some _ => .error "invalid type for field online"
    | none => .error "missing field online"
  | _ => .error "invalid type: expected struct ComputerStatus"

/-! ## Theorems -/

/-- C5 counterexample: the gateway hub serializes the third destination
variant with discriminant `"host"`, not `"hostname"`, and the serialized
`dest` object carries no `"kind"` field at all — the discriminant is the
single external object key (serde's externally tagged representation). -/
theorem dest_tag_counterexample :
    RednetRpcDestination.serialize (.host "echo" "example.com")
      = Json.obj [("host", Json.obj [("protocol", Json.str "echo"),
                                     ("host", Json.str "example.com")])] ∧
    Json.lookup (RednetRpcDestination.serialize (.host "echo" "example.com")) "kind" = none ∧
    destTag (RednetRpcDestination.serialize (.host "echo" "example.com")) = some "host" ∧
    some "host" ∉ [some "anycast", some "computer", some "hostname"] := by
  refine ⟨rfl, rfl, rfl, by decide⟩

/-- C5 (amended): every RPC envelope serialized by the gateway hub carries the
request identifier under the key spelled exactly `"requestID"` (and no
`request_id` key), and the destination under `"dest"` is an externally tagged
union — a one-key object whose key, the discriminant, is a camelCase value
drawn from exactly the set `{anycast, computer, host}`, each of which occurs. -/
theorem envelope_wire_format (T : Type) (serializePayload : T → Json)
    (m : RednetRpcMessage T) :
    Json.lookup (m.serialize serializePayload) "requestID" = some (.str m.request_id) ∧
    Json.lookup (m.serialize serializePayload) "request_id" = none ∧
    Json.lookup (m.serialize serializePayload) "dest" = some m.dest.serialize ∧
    destTag m.dest.serialize ∈ [some "anycast", some "computer", some "host"] ∧
    destTag (RednetRpcDestination.serialize (.anycast "p")) = some "anycast" ∧
    destTag (RednetRpcDestination.serialize (.computer "c" none)) = some "computer" ∧
    destTag (RednetRpcDestination.serialize (.host "p" "h")) = some "host" := by
  refine ⟨rfl, rfl, rfl, ?_, rfl, rfl, rfl⟩
  cases m.dest <;> simp [RednetRpcDestination.serialize, destTag]

/-- C7: evaluating both reconcile tails.  At a nonempty command list the k8s
cluster reconciler requeues after 10 s but writes nothing to the per-cluster
channel (the send is commented out with a TODO), while the legacy controller
publishes the list; both requeue after 300 s on an empty list. -/
theorem k8s_reconcile_tail_eval :
    reconcileTailK8s [GatewayCommand.wake "cp-1"] = (.requeue 10, []) ∧
    (reconcileTailK8s [GatewayCommand.wake "cp-1"]).2 ≠ [[GatewayCommand.wake "cp-1"]] ∧
    reconcileTailLegacy [GatewayCommand.wake "cp-1"]
      = (.requeue 10, [[GatewayCommand.wake "cp-1"]]) ∧
    reconcileTailK8s [] = (.requeue 300, []) ∧
    reconcileTailLegacy [] = (.requeue 300, []) := by
  refine ⟨rfl, by decide, rfl, rfl, rfl⟩

/-- C8: owner-reference derivation returns `MissingField` iff at least one of
`api_version`, `kind`, `name`, `uid` is absent; on success the four fields of
the produced owner reference are exact copies of the inputs. -/
theorem owner_ref_missing_field_iff (r : ObjectReference) :
    (owner_ref_from_object_ref r = .error .missingField ↔
      r.api_version = none ∨ r.kind = none ∨ r.name = none ∨ r.uid = none) ∧
    ∀ ow : OwnerReference, owner_ref_from_object_ref r = .ok ow →
      r.api_version = some ow.api_version ∧ r.kind = some ow.kind ∧
      r.name = some ow.name ∧ r.uid = some ow.uid := by
  obtain ⟨av, k, n, u⟩ := r
  cases av <;> cases k <;> cases n <;> cases u <;>
    simp only [owner_ref_from_object_ref] <;> constructor <;> simp

/-- C8 witness: at a fully populated object reference the derivation succeeds
and copies all four fields; at one with a missing `uid` it fails with
`MissingField`. -/
theorem owner_ref_missing_field_iff_witness :
    owner_ref_from_object_ref
        { api_version := some "v1", kind := some "ComputerCluster",
          name := some "cl", uid := none }
      = .error .missingField ∧
    (({ api_version := some "v1", kind := some "ComputerCluster",
        name := some "cl", uid := some "uid-1" } : ObjectReference).api_version
        = some "v1" ∧
      ({ api_version := some "v1", kind := some "ComputerCluster",
         name := some "cl", uid := some "uid-1" } : ObjectReference).kind
        = some "ComputerCluster" ∧
      ({ api_version := some "v1", kind := some "ComputerCluster",
         name := some "cl", uid := some "uid-1" } : ObjectReference).name
        = some "cl" ∧
      ({ api_version := some "v1", kind := some "ComputerCluster",
         name := some "cl", uid := some "uid-1" } : ObjectReference).uid
        = some "uid-1") :=
  ⟨(owner_ref_missing_field_iff _).1.mpr (by simp),
   (owner_ref_missing_field_iff _).2
     { api_version := "v1", kind := "ComputerCluster", name := "cl", uid := "uid-1",
       controller := none, block_owner_deletion := none } rfl⟩

/-- C9 counterexample: the HTTP route applied by the gateway reconciler claims
parent gateway `cc-web-gateway`, not `cc-gateway`. -/
theorem hub_route_parent_name_counterexample :
    ((gatewayHubRoute "gw1" "cc-system").parent_refs.map fun p => p.name)
      = ["cc-web-gateway"] ∧
    ("cc-web-gateway" : String) ≠ "cc-gateway" :=
  ⟨rfl, by decide⟩

/-- C9 (amended): for every ComputerGateway reconcile, the applied HTTP route
claims parent gateway named `cc-web-gateway` (in the controller namespace,
listener section `cc-web-gateway`), matches path prefix `/{gateway_name}`, and
backends to the hub Service — named `rednet-gateway-{gateway_name}` — on port
8000. -/
theorem hub_route_shape (gateway_name controller_namespace : String) :
    (gatewayHubRoute gateway_name controller_namespace).parent_refs
      = [{ name := "cc-web-gateway", ns := some controller_namespace,
           section_name := some "cc-web-gateway" }] ∧
    ((gatewayHubRoute gateway_name controller_namespace).rules.map fun rule =>
        rule.rule_matches.map fun m => m.value) = [[some ("/" ++ gateway_name)]] ∧
    ((gatewayHubRoute gateway_name controller_namespace).rules.map fun rule =>
        rule.backend_refs)
      = [[{ name := "rednet-gateway-" ++ gateway_name, port := some 8000 }]] ∧
    (gatewayHubRoute gateway_name controller_namespace).name
      = "rednet-gateway-" ++ gateway_name ∧
    gatewayHubService gateway_name
      = { name := "rednet-gateway-" ++ gateway_name,
          selector_app := "rednet-gateway-" ++ gateway_name,
          port := 8000, target_port := 8000, service_type := "ClusterIP" } :=
  ⟨rfl, rfl, rfl, rfl, rfl⟩

/-- C10: any JSON value that deserializes into a `ComputerStatus` yields the
default internal state (`label = none`, `script = none`) regardless of the
JSON content, because the field carries `#[serde(skip)]`; consequently the
reconciler's state diff on such a computer compares `spec.state` against this
default rather than against a mirror of the last applied state. -/
theorem status_state_always_default (j : Json) (st : ComputerStatus)
    (h : deserializeComputerStatus j = .ok st) :
    st.state = ComputerInternalState.default ∧
    ∀ c : Computer, c.status = some st →
      ((c.status.map fun s => s.state) ≠ some c.spec.state ↔
        c.spec.state ≠ ComputerInternalState.default) := by
  have hstate : st.state = ComputerInternalState.default := by
    unfold deserializeComputerStatus at h
    repeat split at h
    all_goals simp_all
    all_goals exact (congrArg ComputerStatus.state h.symm)
  refine ⟨hstate, ?_⟩
  intro c hc
  rw [hc]
  simp [hstate, eq_comm]

/-- C10 witness: a status JSON object that does carry a `"state"` entry with a
non-default label still deserializes to the default internal state. -/
theorem status_state_always_default_witness :
    ∃ st : ComputerStatus,
      deserializeComputerStatus
          (Json.obj [("state", Json.obj [("label", Json.str "X")]),
                     ("online", Json.bool true)])
        = .ok st ∧ st.state = ComputerInternalState.default :=
  ⟨{ state := ComputerInternalState.default, online := true,
     last_heartbeat_unix_sec := none },
   rfl,
   (status_state_always_default
      (Json.obj [("state", Json.obj [("label", Json.str "X")]),
                 ("online", Json.bool true)])
      { state := ComputerInternalState.default, online := true,
        last_heartbeat_unix_sec := none }
      rfl).1⟩

/-- C4: in one cluster-reconcile pass, every listed computer owned by the
cluster whose observed state differs structurally from its declared state
(including an absent status) contributes exactly a `Wake{computer_id = spec.id}`
command and no status patch — the heartbeat logic is skipped — and that Wake
appears in the pass's command list. -/
theorem wake_on_state_mismatch (clusterUid : Option String) (now : Int)
    (computers : List Computer) (c : Computer) (hmem : c ∈ computers)
    (howned : ownedByCluster clusterUid c = true)
    (hmismatch : c.status.map (fun st => st.state) ≠ some c.spec.state) :
    diffStep clusterUid now c = ([.wake c.spec.id], []) ∧
    GatewayCommand.wake c.spec.id ∈ (computeClusterDiff clusterUid now computers).1 := by
  have hstep : diffStep clusterUid now c = ([.wake c.spec.id], []) := by
    simp [diffStep, howned, hmismatch]
  refine ⟨hstep, ?_⟩
  induction computers with
  | nil => cases hmem
  | cons hd tl ih =>
      rcases List.mem_cons.mp hmem with heq | hmem'
      · subst heq
        simp [computeClusterDiff, hstep]
      · simp only [computeClusterDiff, List.mem_append]
        exact Or.inr (ih hmem')

/-- C4 witness: scenario S5 — a computer with `spec.state.label = "A"` but
`status.state.label = "B"`, owned by the cluster, yields a Wake. -/
theorem wake_on_state_mismatch_witness :
    diffStep (some "U") 1000
        { metadata := { name := some "cp", uid := some "cp-uid",
                        owner_references := some
                          [{ api_version := "sms.dev/v1", kind := "ComputerCluster",
                             name := "cl", uid := "U",
                             controller := none, block_owner_deletion := none }] }
          spec := { id := "7", state := { label := some "A", script := none } }
          status := some { state := { label := some "B", script := none },
                           online := true, last_heartbeat_unix_sec := some 900 } }
      = ([.wake "7"], []) ∧
    GatewayCommand.wake "7" ∈
      (computeClusterDiff (some "U") 1000
        [{ metadata := { name := some "cp", uid := some "cp-uid",
                         owner_references := some
                           [{ api_version := "sms.dev/v1", kind := "ComputerCluster",
                              name := "cl", uid := "U",
                              controller := none, block_owner_deletion := none }] }
           spec := { id := "7", state := { label := some "A", script := none } }
           status := some { state := { label := some "B", script := none },
                            online := true, last_heartbeat_unix_sec := some 900 } }]).1 :=
  wake_on_state_mismatch (some "U") 1000 _ _ (List.mem_singleton.mpr rfl)
    (by decide) (by decide)

/-- C6: in one cluster-reconcile pass, an owned computer whose status exists
and matches its spec state has `is_online` recomputed as "heartbeat present
and at least `now - 300`"; when that differs from `status.online` the step
issues exactly one status patch carrying the new value and emits a Wake iff
the new value is `false`; when it agrees the step does nothing. -/
theorem online_recompute_patch (clusterUid : Option String) (now : Int)
    (c : Computer) (st : ComputerStatus) (nm : String)
    (howned : ownedByCluster clusterUid c = true)
    (hstatus : c.status = some st)
    (hstate : st.state = c.spec.state)
    (hname : c.metadata.name = some nm) :
    (st.online ≠ (st.last_heartbeat_unix_sec.any fun t => decide (now - 300 ≤ t)) →
      diffStep clusterUid now c =
        ((if st.last_heartbeat_unix_sec.any (fun t => decide (now - 300 ≤ t)) then []
          else [.wake c.spec.id]),
         [{ name := nm,
            online := st.last_heartbeat_unix_sec.any fun t => decide (now - 300 ≤ t) }])) ∧
    (st.online = (st.last_heartbeat_unix_sec.any fun t => decide (now - 300 ≤ t)) →
      diffStep clusterUid now c = ([], [])) := by
  constructor
  · intro hdiff
    simp only [sub_le_iff_le_add] at hdiff
    simp [diffStep, howned, hstatus, hstate, hname, hdiff, bne_iff_ne]
  · intro hsame
    simp only [sub_le_iff_le_add] at hsame
    simp [diffStep, howned, hstatus, hstate, hname, hsame]

/-- C6 witness: scenario S6 — an owned computer with `status.online = true`
and a heartbeat 400 s old is patched to `online = false` and woken. -/
theorem online_recompute_patch_witness :
    diffStep (some "U") 1000
        { metadata := { name := some "cp", uid := some "cp-uid",
                        owner_references := some
                          [{ api_version := "sms.dev/v1", kind := "ComputerCluster",
                             name := "cl", uid := "U",
                             controller := none, block_owner_deletion := none }] }
          spec := { id := "7", state := { label := none, script := none } }
          status := some { state := { label := none, script := none },
                           online := true, last_heartbeat_unix_sec := some 600 } }
      = ([.wake "7"], [{ name := "cp", online := false }]) :=
  (online_recompute_patch (some "U") 1000 _
      { state := { label := none, script := none },
        online := true, last_heartbeat_unix_sec := some 600 }
      "cp" (by decide) rfl rfl rfl).1 (by decide)

/-- The handler's `find_map` route selection agrees with the spec-side
first-match recursion; selection only depends on the request path. -/
theorem selectBackend_eq_firstMatchingBackend (routes : List HttpOverRednetRoute)
    (req : HttpRequest) :
    selectBackend routes req = firstMatchingBackend routes req.path := by
  induction routes with
  | nil => rfl
  | cons route rest ih =>
      simp only [selectBackend, List.findSome?_cons, firstMatchingBackend,
        HttpOverRednetRoute.check] at *
      split <;> simp_all

/-- C1: on every exit of the handler's wait (reply received, timeout, reply
slot closed, or the waiting request dropped), and on every early-error path,
a freshly generated `requestID` is absent from the in-flight table at handler
return; `RednetRpcReceiver`'s pinned drop (`Server::cancel_request`) removes
its `requestID` unconditionally. -/
theorem in_flight_table_cleanup (env : HandlerEnv) (req : HttpRequest)
    (request_id : Uuid) (s : ServerState)
    (hfresh : request_id ∉ s.in_flight_requests) :
    request_id ∉ (gatewayHandle env req request_id s).server.in_flight_requests ∧
    ∀ table : List Uuid, request_id ∉ cancelRequest table request_id := by
  have hcancel : ∀ table : List Uuid, request_id ∉ cancelRequest table request_id := by
    intro table
    simp [cancelRequest, List.mem_filter]
  refine ⟨?_, hcancel⟩
  unfold gatewayHandle
  repeat' split
  all_goals first | exact hfresh | exact hcancel _

/-- C1 witness: a concrete request whose wait times out leaves no trace of its
`requestID` in the in-flight table. -/
theorem in_flight_table_cleanup_witness :
    "rid-1" ∉ (gatewayHandle
        { configResult := some { routes := [{ prefixStr := "/", backend := .anycast "echo" }] }
          bodyResult := some ""
          randIndex := 0
          waitOutcome := .timedOut }
        { method := "GET", path := "/gateway/hello", query := none, headers := [], body := "" }
        "rid-1"
        { listeners := [("c1", true)], in_flight_requests := [] }).server.in_flight_requests :=
  (in_flight_table_cleanup _ _ "rid-1" _ (by simp)).1

/-- C2 counterexample: a request for exactly `/gateway` strips to `""`, which
is not a valid origin path, so the handler answers 500 before route matching —
even though no route's prefix is a prefix of the stripped path, where the
claim demands 404. -/
theorem route_selection_counterexample :
    (gatewayHandle
        { configResult := some { routes := [] }
          bodyResult := some ""
          randIndex := 0
          waitOutcome := .timedOut }
        { method := "GET", path := "/gateway", query := none, headers := [], body := "" }
        "rid-0"
        { listeners := [("c1", true)], in_flight_requests := [] }).outcome
      = .failure 500 ∧
    firstMatchingBackend ([] : List HttpOverRednetRoute)
        (stripGatewayPath "/gateway") = none ∧
    HandlerOutcome.failure 500 ≠ HandlerOutcome.failure 404 := by
  refine ⟨rfl, rfl, by decide⟩

/-- C2 (amended): under a loaded rednet config, for every request path whose
stripped form survives `map_path` (it still begins with `/`; a request for
exactly `/gateway` instead draws a 500 before route matching), the backend the
handler selects is the backend of the first route in declared order whose
prefix is a string prefix of the stripped path (every envelope it enqueues
carries that backend as `dest`); when no route's prefix is a prefix of the
stripped path the handler returns 404 and no envelope is sent. -/
theorem route_selection_first_match (env : HandlerEnv) (req : HttpRequest)
    (request_id : Uuid) (s : ServerState) (rednet : RednetConfig)
    (stripped : String)
    (hcfg : env.configResult = some rednet)
    (hstrip : mapPathStripGateway req.path = some stripped) :
    (∀ r : HttpRequest, selectBackend rednet.routes r = firstMatchingBackend rednet.routes r.path) ∧
    (firstMatchingBackend rednet.routes stripped = none →
      (gatewayHandle env req request_id s).outcome = .failure 404 ∧
      (gatewayHandle env req request_id s).sent = []) ∧
    (∀ d, firstMatchingBackend rednet.routes stripped = some d →
      ∀ m ∈ (gatewayHandle env req request_id s).sent, m.dest = d) := by
  refine ⟨fun r => selectBackend_eq_firstMatchingBackend rednet.routes r, ?_, ?_⟩
  · intro hnone
    have hsel : selectBackend rednet.routes
        { req with path := stripped } = none := by
      rw [selectBackend_eq_firstMatchingBackend]
      exact hnone
    constructor <;> simp [gatewayHandle, hcfg, hstrip, hsel]
  · intro d hd m hm
    have hsel : selectBackend rednet.routes
        { req with path := stripped } = some d := by
      rw [selectBackend_eq_firstMatchingBackend]
      exact hd
    simp only [gatewayHandle, hcfg, hstrip, hsel] at hm
    rcases henv : env.bodyResult with _ | body
    · simp [henv] at hm
    · simp only [henv] at hm
      rcases hnr : newRequest s env.randIndex
          ⟨d, request_id, { req with path := stripped, body := body }⟩ with st | pair
      · simp [hnr] at hm
      · simp only [hnr] at hm
        have hsent : pair.2 = [⟨d, request_id,
            { req with path := stripped, body := body }⟩] := by
          unfold newRequest at hnr
          split at hnr
          · cases hnr
          · split at hnr
            · cases hnr
            · split at hnr
              · cases hnr
                rfl
              · cases hnr
        rw [hsent] at hm
        simp at hm
        rw [hm]

/-- C2 witness: with the route `{prefix: "/hello", backend: anycast "echo"}`
loaded, a request for `/gateway/other` is answered 404 and no envelope is
enqueued (scenario S2). -/
theorem route_selection_first_match_witness :
    (gatewayHandle
        { configResult := some { routes := [{ prefixStr := "/hello", backend := .anycast "echo" }] }
          bodyResult := some ""
          randIndex := 0
          waitOutcome := .timedOut }
        { method := "GET", path := "/gateway/other", query := none, headers := [], body := "" }
        "rid-2"
        { listeners := [("c1", true)], in_flight_requests := [] }).outcome
      = .failure 404 ∧
    (gatewayHandle
        { configResult := some { routes := [{ prefixStr := "/hello", backend := .anycast "echo" }] }
          bodyResult := some ""
          randIndex := 0
          waitOutcome := .timedOut }
        { method := "GET", path := "/gateway/other", query := none, headers := [], body := "" }
        "rid-2"
        { listeners := [("c1", true)], in_flight_requests := [] }).sent = [] :=
  (route_selection_first_match
      { configResult := some { routes := [{ prefixStr := "/hello", backend := .anycast "echo" }] }
        bodyResult := some ""
        randIndex := 0
        waitOutcome := .timedOut }
      { method := "GET", path := "/gateway/other", query := none, headers := [], body := "" }
      "rid-2"
      { listeners := [("c1", true)], in_flight_requests := [] }
      { routes := [{ prefixStr := "/hello", backend := .anycast "echo" }] }
      "/other" rfl rfl).2.1 (by decide)

/-- `Server::new_request` on an empty listener snapshot fails with 502. -/
theorem newRequest_no_listeners (s : ServerState) (randIndex : Nat)
    (message : RednetRpcMessage HttpRequest) (h : s.listeners = []) :
    newRequest s randIndex message = .error 502 := by
  simp [newRequest, h]

/-- `Server::new_request` fails with 500 when the chosen listener's channel is
closed. -/
theorem newRequest_send_failure (s : ServerState) (randIndex : Nat)
    (message : RednetRpcMessage HttpRequest) (cid : ComputerId)
    (h : s.listeners[randIndex]? = some (cid, false)) :
    newRequest s randIndex message = .error 500 := by
  have hne : s.listeners.isEmpty = false := by
    rcases hl : s.listeners with _ | ⟨a, l⟩
    · rw [hl] at h
      simp at h
    · simp
  simp [newRequest, hne, h]

/-- `Server::new_request` on an open chosen listener enqueues the envelope and
installs the reply slot. -/
theorem newRequest_ok (s : ServerState) (randIndex : Nat)
    (message : RednetRpcMessage HttpRequest) (cid : ComputerId)
    (h : s.listeners[randIndex]? = some (cid, true)) :
    newRequest s randIndex message =
      .ok ({ s with in_flight_requests := message.request_id :: s.in_flight_requests },
           [message]) := by
  have hne : s.listeners.isEmpty = false := by
    rcases hl : s.listeners with _ | ⟨a, l⟩
    · rw [hl] at h
      simp at h
    · simp
  simp [newRequest, hne, h]

/-- C3 counterexample: with the config loaded and no route matching the
stripped path, the claim's enumeration demands 404 — but a request for exactly
`/gateway` fails the path strip and the handler answers 500 before route
matching, an outcome the claimed mapping does not list. -/
theorem status_mapping_counterexample :
    (gatewayHandle
        { configResult := some { routes := [{ prefixStr := "/hello", backend := .anycast "echo" }] }
          bodyResult := some ""
          randIndex := 0
          waitOutcome := .timedOut }
        { method := "GET", path := "/gateway", query := none, headers := [], body := "" }
        "rid-9"
        { listeners := [("c1", true)], in_flight_requests := [] }).outcome
      = .failure 500 ∧
    firstMatchingBackend [{ prefixStr := "/hello", backend := .anycast "echo" }]
        (stripGatewayPath "/gateway") = none ∧
    HandlerOutcome.failure 500 ≠ HandlerOutcome.failure 404 := by
  refine ⟨rfl, rfl, by decide⟩

/-- C3 (amended): the gateway hub's outcome-to-status mapping, stage by stage
in source order — unreadable or unparseable config 502; path-strip failure
(the stripped path is no longer a valid origin path, as for a request of
exactly `/gateway`) 500 before route matching; no matching route 404; body
read failure 500; empty listener snapshot 502; send on a closed listener
channel 500; wait timing out after `gateway_timeout` seconds (serde default 5)
504; reply slot closed without a value 502; and a received reply is passed
through with its status, headers and body. -/
theorem handler_status_mapping (env : HandlerEnv) (req : HttpRequest)
    (request_id : Uuid) (s : ServerState) :
    default_gateway_timeout = 5 ∧
    (env.configResult = none →
      (gatewayHandle env req request_id s).outcome = .failure 502) ∧
    (∀ rednet, env.configResult = some rednet →
      mapPathStripGateway req.path = none →
      (gatewayHandle env req request_id s).outcome = .failure 500) ∧
    (∀ rednet stripped, env.configResult = some rednet →
      mapPathStripGateway req.path = some stripped →
      firstMatchingBackend rednet.routes stripped = none →
      (gatewayHandle env req request_id s).outcome = .failure 404) ∧
    (∀ rednet stripped d, env.configResult = some rednet →
      mapPathStripGateway req.path = some stripped →
      firstMatchingBackend rednet.routes stripped = some d →
      env.bodyResult = none →
      (gatewayHandle env req request_id s).outcome = .failure 500) ∧
    (∀ rednet stripped d body, env.configResult = some rednet →
      mapPathStripGateway req.path = some stripped →
      firstMatchingBackend rednet.routes stripped = some d →
      env.bodyResult = some body → s.listeners = [] →
      (gatewayHandle env req request_id s).outcome = .failure 502) ∧
    (∀ rednet stripped d body cid, env.configResult = some rednet →
      mapPathStripGateway req.path = some stripped →
      firstMatchingBackend rednet.routes stripped = some d →
      env.bodyResult = some body → s.listeners[env.randIndex]? = some (cid, false) →
      (gatewayHandle env req request_id s).outcome = .failure 500) ∧
    (∀ rednet stripped d body cid, env.configResult = some rednet →
      mapPathStripGateway req.path = some stripped →
      firstMatchingBackend rednet.routes stripped = some d →
      env.bodyResult = some body → s.listeners[env.randIndex]? = some (cid, true) →
      env.waitOutcome = .timedOut →
      (gatewayHandle env req request_id s).outcome = .failure 504) ∧
    (∀ rednet stripped d body cid, env.configResult = some rednet →
      mapPathStripGateway req.path = some stripped →
      firstMatchingBackend rednet.routes stripped = some d →
      env.bodyResult = some body → s.listeners[env.randIndex]? = some (cid, true) →
      env.waitOutcome = .canceled →
      (gatewayHandle env req request_id s).outcome = .failure 502) ∧
    (∀ rednet stripped d body cid resp, env.configResult = some rednet →
      mapPathStripGateway req.path = some stripped →
      firstMatchingBackend rednet.routes stripped = some d →
      env.bodyResult = some body → s.listeners[env.randIndex]? = some (cid, true) →
      env.waitOutcome = .reply resp →
      (gatewayHandle env req request_id s).outcome = .success resp ∧
      (HttpResponse.respond_to resp).status = resp.status ∧
      (HttpResponse.respond_to resp).body = resp.body) := by
  have hsel : ∀ (rednet : RednetConfig) (stripped : String),
      selectBackend rednet.routes { req with path := stripped }
        = firstMatchingBackend rednet.routes stripped :=
    fun rednet stripped => selectBackend_eq_firstMatchingBackend rednet.routes _
  refine ⟨rfl, ?_, ?_, ?_, ?_, ?_, ?_, ?_, ?_, ?_⟩
  · intro hcfg
    simp [gatewayHandle, hcfg]
  · intro rednet hcfg hstrip
    simp [gatewayHandle, hcfg, hstrip]
  · intro rednet stripped hcfg hstrip hroute
    simp [gatewayHandle, hcfg, hstrip, hsel rednet stripped, hroute]
  · intro rednet stripped d hcfg hstrip hroute hbody
    simp [gatewayHandle, hcfg, hstrip, hsel rednet stripped, hroute, hbody]
  · intro rednet stripped d body hcfg hstrip hroute hbody hempty
    simp [gatewayHandle, hcfg, hstrip, hsel rednet stripped, hroute, hbody,
      newRequest_no_listeners s env.randIndex _ hempty]
  · intro rednet stripped d body cid hcfg hstrip hroute hbody hclosed
    simp [gatewayHandle, hcfg, hstrip, hsel rednet stripped, hroute, hbody,
      newRequest_send_failure s env.randIndex _ cid hclosed]
  · intro rednet stripped d body cid hcfg hstrip hroute hbody hopen hwait
    simp [gatewayHandle, hcfg, hstrip, hsel rednet stripped, hroute, hbody, hwait,
      newRequest_ok s env.randIndex _ cid hopen]
  · intro rednet stripped d body cid hcfg hstrip hroute hbody hopen hwait
    simp [gatewayHandle, hcfg, hstrip, hsel rednet stripped, hroute, hbody, hwait,
      newRequest_ok s env.randIndex _ cid hopen]
  · intro rednet stripped d body cid resp hcfg hstrip hroute hbody hopen hwait
    refine ⟨?_, rfl, rfl⟩
    simp [gatewayHandle, hcfg, hstrip, hsel rednet stripped, hroute, hbody, hwait,
      newRequest_ok s env.randIndex _ cid hopen]

/-- C3 witness: with one route and one open listener, a request whose wait
times out is answered 504; the same request with the config unreadable is
answered 502. -/
theorem handler_status_mapping_witness :
    (gatewayHandle
        { configResult := some { routes := [{ prefixStr := "/hello", backend := .anycast "echo" }] }
          bodyResult := some ""
          randIndex := 0
          waitOutcome := .timedOut }
        { method := "GET", path := "/gateway/hello/world", query := none, headers := [], body := "" }
        "rid-3"
        { listeners := [("c1", true)], in_flight_requests := [] }).outcome
      = .failure 504 ∧
    (gatewayHandle
        { configResult := none, bodyResult := some "", randIndex := 0,
          waitOutcome := .timedOut }
        { method := "GET", path := "/gateway/hello/world", query := none, headers := [], body := "" }
        "rid-3"
        { listeners := [("c1", true)], in_flight_requests := [] }).outcome
      = .failure 502 :=
  ⟨(handler_status_mapping _ _ "rid-3" _).2.2.2.2.2.2.2.1
      { routes := [{ prefixStr := "/hello", backend := .anycast "echo" }] }
      "/hello/world" (.anycast "echo") "" "c1" rfl rfl (by decide) rfl rfl rfl,
   (handler_status_mapping _ _ "rid-3" _).2.1 rfl⟩

end Computercraft
